import Mathlib

/-!
Shallow embedding of the murder-mystery orchestration core
(ai-service: agents/state.py, agents/persona_agent.py,
agents/gamemaster_agent.py, agents/graph.py, main.py /chat,
services/scenario_generator.py).

Python dicts with string keys are modelled as insertion-ordered
association lists; the LLM is an oracle parameter; stress levels
(Python floats manipulated only by `min(1.0, s + 0.1)`) are modelled
as rationals.  Voice/audio, logging and metrics are external
collaborators excluded from the core and are not modelled.
-/

namespace MurderMystery

/-- Lookup in an insertion-ordered association list (Python `dict.get(k)`). -/
def alookup {α : Type} (m : List (String × α)) (k : String) : Option α :=
  (m.find? (fun p => p.1 == k)).map (fun p => p.2)

/-- Update in an insertion-ordered association list (Python `d[k] = v`):
replaces the binding in place if present, otherwise appends. -/
def aset {α : Type} (m : List (String × α)) (k : String) (v : α) :
    List (String × α) :=
  match m with
  | [] => [(k, v)]
  | (k', v') :: rest =>
      if k' == k then (k, v) :: rest else (k', v') :: aset rest k v

/-- agents/state.py `Message`: one chat-history entry. -/
structure Message where
  role : String
  persona_slug : Option String
  content : String
deriving DecidableEq

/-- agents/state.py `AgentState`: per-persona dynamic state. -/
structure AgentState where
  stress_level : ℚ
  lies_told : Nat
  interrogation_count : Nat
  last_topics : List String
deriving DecidableEq

/-- agents/state.py `create_initial_agent_state`; also the value produced by
the `dict.get(slug, {})` defaults read in persona_agent.py. -/
def create_initial_agent_state : AgentState :=
  { stress_level := 0, lies_told := 0, interrogation_count := 0, last_topics := [] }

/-- Read of `state["agent_states"].get(slug, {})` followed by the
`.get("stress_level", 0)` / `.get("interrogation_count", 0)` defaults. -/
def lookupAgentD (m : List (String × AgentState)) (k : String) : AgentState :=
  (alookup m k).getD create_initial_agent_state

/-- agents/state.py `GameState` (audio/voice transients of the excluded
voice collaborator omitted). -/
structure GameState where
  game_id : String
  scenario_name : String
  setting : String
  victim : String
  timeline : String
  shared_facts : String
  user_message : String
  selected_persona : String
  messages : List Message
  agent_states : List (String × AgentState)
  revealed_clues : List String
  game_status : String
  final_response : String
  responding_agent : String
  detected_clue : Option String
deriving DecidableEq

/-- One persona entry of a scenario dict (slug, name, role, descriptions). -/
structure PersonaData where
  slug : String
  name : String
  role : String
  public_description : String
  personality : String
  private_knowledge : String
  knows_about_others : String
deriving DecidableEq

/-- The scenario dict consumed by the GameMaster (victim flattened to the
string built in create_initial_game_state). -/
structure Scenario where
  name : String
  setting : String
  victim_name : String
  victim_role : String
  timeline : String
  shared_knowledge : String
  personas : List PersonaData
  intro_message : String
deriving DecidableEq

/-- agents/state.py `create_initial_game_state`. -/
def create_initial_game_state (game_id : String) (scenario : Scenario) : GameState :=
  { game_id := game_id
    scenario_name := scenario.name
    setting := scenario.setting
    victim := scenario.victim_name ++ " (" ++ scenario.victim_role ++ ")"
    timeline := scenario.timeline
    shared_facts := scenario.shared_knowledge
    user_message := ""
    selected_persona := ""
    messages := []
    agent_states := scenario.personas.map
      (fun p => (p.slug, create_initial_agent_state))
    revealed_clues := []
    game_status := "active"
    final_response := ""
    responding_agent := ""
    detected_clue := none }

/-! Persona agent (agents/persona_agent.py). -/

/-- Python `str.lower()` restricted to the alphabet this code exercises:
ASCII letters plus the German umlauts appearing in the configured data. -/
def pyLowerChar (c : Char) : Char :=
  if c = 'Ä' then 'ä'
  else if c = 'Ö' then 'ö'
  else if c = 'Ü' then 'ü'
  else c.toLower

/-- Python `response.lower()` on the character list of a string. -/
def strLower (s : List Char) : List Char := s.map pyLowerChar

/-- Test whether `needle` starts the list `hay`. -/
def beginsWith : List Char → List Char → Bool
  | [], _ => true
  | _ :: _, [] => false
  | a :: as, b :: bs => (a == b) && beginsWith as bs

/-- Python substring containment `needle in hay`. -/
def containsSub (hay needle : List Char) : Bool :=
  if beginsWith needle hay then true
  else
    match hay with
    | [] => false
    | _ :: t => containsSub t needle

/-- persona_agent.py `_setup_clue_keywords`: the hardcoded keyword map,
empty for any slug outside the four hardcoded ones. -/
def setup_clue_keywords (slug : String) : List String :=
  if slug = "tom" then
    ["21:15", "zugangskarte", "sonntag abend", "trophäe", "hand", "schnitt",
     "geschnitten"]
  else if slug = "lisa" then
    ["e-mail", "diebstahl", "geheimnisse", "streit am freitag", "samstag"]
  else if slug = "klaus" then
    ["gesehen", "21 uhr", "blut", "flur", "tom gesehen"]
  else if slug = "elena" then
    ["investoren", "kontrolle", "streit mit marcus", "finanzen"]
  else []

/-- The agent identity as built in `PersonaAgent.__init__` (voice collaborator
omitted; the prompt-composition inputs are not needed by any claim). -/
structure PersonaAgent where
  slug : String
  name : String
  clue_keywords : List String
deriving DecidableEq

/-- Constructor corresponding to `PersonaAgent.__init__`, which sets
`self.clue_keywords = self._setup_clue_keywords()`. -/
def mkPersonaAgent (slug name : String) : PersonaAgent :=
  { slug := slug, name := name, clue_keywords := setup_clue_keywords slug }

/-- ASCII 39, the single-quote character used in the clue format string. -/
def squote : String := String.singleton (Char.ofNat 39)

/-- The f-string of `_detect_revealed_clue`. -/
def fmtClue (name keyword : String) : String :=
  name ++ " erwähnte " ++ squote ++ keyword ++ squote

/-- persona_agent.py `_detect_revealed_clue`: lowercase the reply, return the
formatted clue of the first configured keyword contained in it. -/
def detect_revealed_clue (name : String) (clue_keywords : List String)
    (response : String) : Option String :=
  let response_lower := strLower response.toList
  (clue_keywords.find? (fun kw => containsSub response_lower kw.toList)).map
    (fun kw => fmtClue name kw)

/-- A message handed to the generative call (langchain Human/AI message). -/
inductive HistMsg where
  | human (content : String)
  | ai (content : String)
deriving DecidableEq

/-- persona_agent.py `_get_persona_history`: take the last 10 history entries
(`[-10:]`), keep user messages as Human and the own replies of this persona as AI,
drop the entries of every other persona. -/
def get_persona_history (slug : String) (messages : List Message) :
    List HistMsg :=
  (messages.drop (messages.length - 10)).filterMap (fun m =>
    match m.persona_slug with
    | none => some (HistMsg.human m.content)
    | some s => if s = slug then some (HistMsg.ai m.content) else none)

/-- persona_agent.py `invoke`, the state update applied after a successful
model call returning `response_text` (lines 191-219): clue detection, stress
and interrogation-count update, clue-list append with exact-string dedup,
transient response fields, and the assistant history entry (which the
LangGraph `Annotated[..., add]` reducer appends to the message channel). -/
def applyInvoke (agent : PersonaAgent) (response_text : String)
    (state : GameState) : GameState :=
  let detected_clue :=
    detect_revealed_clue agent.name agent.clue_keywords response_text
  let agent_state := lookupAgentD state.agent_states agent.slug
  let agent_state' :=
    { agent_state with
        stress_level := min 1 (agent_state.stress_level + 1/10)
        interrogation_count := agent_state.interrogation_count + 1 }
  let revealed' :=
    match detected_clue with
    | some c =>
        if c ∈ state.revealed_clues then state.revealed_clues
        else state.revealed_clues ++ [c]
    | none => state.revealed_clues
  { state with
      agent_states := aset state.agent_states agent.slug agent_state'
      revealed_clues := revealed'
      final_response := response_text
      responding_agent := agent.slug
      detected_clue := detected_clue
      messages := state.messages ++
        [{ role := "assistant", persona_slug := some agent.slug,
           content := response_text }] }

/-- persona_agent.py `invoke`: compose history, issue one generative call
(the `llm` oracle receives exactly the filtered history and the current user
message), propagate its failure untouched, otherwise apply the post-call
state update.  No retry exists at this layer. -/
def invoke (agent : PersonaAgent)
    (llm : List HistMsg → String → Except String String)
    (state : GameState) : Except String GameState :=
  match llm (get_persona_history agent.slug state.messages)
      state.user_message with
  | Except.error e => Except.error e
  | Except.ok response_text => Except.ok (applyInvoke agent response_text state)

/-! Coordinator (agents/gamemaster_agent.py), routing graph (agents/graph.py)
and the chat pipeline (main.py `chat_with_persona`). -/

/-- agents/gamemaster_agent.py `GameMasterAgent`: the scenario it was built
from; its persona agents are derived below as in `__init__`. -/
structure GameMaster where
  scenario : Scenario
deriving DecidableEq

/-- The `self.persona_agents` dict built in `GameMasterAgent.__init__`
(insertion order = scenario persona order; keys are the slugs). -/
def GameMaster.persona_agents (gm : GameMaster) : List PersonaAgent :=
  gm.scenario.personas.map (fun p => mkPersonaAgent p.slug p.name)

/-- Lookup of `self.persona_agents[slug]` / `.get(slug)`. -/
def GameMaster.findAgent (gm : GameMaster) (slug : String) :
    Option PersonaAgent :=
  gm.persona_agents.find? (fun a => a.slug == slug)

/-- The in-memory game-state store `self.game_states`. -/
abbrev Store := List (String × GameState)

/-- gamemaster_agent.py `initialize_game`: create the initial state and store
it under the game id. -/
def initialize_game (gm : GameMaster) (store : Store) (game_id : String) :
    Store × GameState :=
  let state := create_initial_game_state game_id gm.scenario
  (aset store game_id state, state)

/-- graph.py `route_to_persona` (same logic as gamemaster_agent.py
`router_node`): return the selected persona when it is a known agent key,
otherwise silently fall back to the fixed default `"elena"`. -/
def route_to_persona (gm : GameMaster) (state : GameState) : String :=
  let selected := state.selected_persona
  if gm.persona_agents.any (fun a => a.slug == selected) then selected
  else "elena"

/-- gamemaster_agent.py `prepare_state_for_agent`: fetch (a copy of) or
create-and-store the game state, set the transient request fields, and set
`messages` to the caller-supplied `chat_history` plus one appended
player entry — the previously stored history is not consulted. -/
def prepare_state_for_agent (gm : GameMaster) (store : Store)
    (game_id persona_slug user_message : String)
    (chat_history : List Message) : Store × GameState :=
  let fetched :=
    match alookup store game_id with
    | some s => (store, s)
    | none => initialize_game gm store game_id
  let state := fetched.2
  let user_msg : Message :=
    { role := "user", persona_slug := none, content := user_message }
  (fetched.1,
   { state with
       user_message := user_message
       selected_persona := persona_slug
       messages := chat_history ++ [user_msg] })

/-- main.py `chat_with_persona` (the full turn, HTTP shaping aside):
reject an unknown persona before touching any state; otherwise prepare the
state, run the graph (router node, `route_to_persona`, then the routed
agent `invoke`, whose `messages` return value is accumulated by the `add`
reducer — already composed into `applyInvoke`), and on success store the
final state via `update_game_state`.  A model-call error propagates and the
final-state store write never happens. -/
def chat_with_persona (gm : GameMaster) (store : Store)
    (game_id persona_slug message : String) (chat_history : List Message)
    (llm : List HistMsg → String → Except String String) :
    Store × Except String GameState :=
  match gm.findAgent persona_slug with
  | none => (store, Except.error "Invalid persona")
  | some _ =>
      let prepared :=
        prepare_state_for_agent gm store game_id persona_slug message
          chat_history
      let store1 := prepared.1
      let state := prepared.2
      let routed := route_to_persona gm state
      match gm.findAgent routed with
      | none => (store1, Except.error "no graph node")
      | some agent =>
          match invoke agent llm state with
          | Except.error e => (store1, Except.error e)
          | Except.ok final_state =>
              (aset store1 game_id final_state, Except.ok final_state)

/-- One successful chat turn: `chat_with_persona` with an oracle that
returns `response` — used to describe sequences of successful turns. -/
def chat_turn_ok (gm : GameMaster) (store : Store)
    (game_id persona_slug message : String) (chat_history : List Message)
    (response : String) : Store :=
  (chat_with_persona gm store game_id persona_slug message chat_history
    (fun _ _ => Except.ok response)).1

/-- The data of one requested turn (persona, message, client-echoed history,
and the text the model call returns). -/
structure TurnReq where
  slug : String
  message : String
  chat_history : List Message
  response : String

/-- A sequence of successful turns against one game. -/
def runTurns (gm : GameMaster) (game_id : String) (turns : List TurnReq)
    (store : Store) : Store :=
  turns.foldl
    (fun st t => chat_turn_ok gm st game_id t.slug t.message t.chat_history
      t.response) store

/-! Scenario generator (services/scenario_generator.py). -/

/-- scenario_generator.py `VictimModel`. -/
structure VictimModel where
  name : String
  role : String
  description : String
deriving DecidableEq

/-- scenario_generator.py `SolutionModel`. -/
structure SolutionModel where
  murderer : String
  motive : String
  weapon : String
  critical_clues : List String
deriving DecidableEq

/-- scenario_generator.py `PersonaBlueprintModel` (Phase 1 output item). -/
structure PersonaBlueprintModel where
  slug : String
  name : String
  role : String
  public_description : String
  is_murderer : Bool
  secret_summary : String
deriving DecidableEq

/-- scenario_generator.py `BaseScenarioModel` (Phase 1 output). -/
structure BaseScenarioModel where
  name : String
  setting : String
  victim : VictimModel
  solution : SolutionModel
  shared_knowledge : String
  timeline : String
  persona_blueprints : List PersonaBlueprintModel
  intro_message : String
deriving DecidableEq

/-- scenario_generator.py `PersonaModel` (Phase 2 output). -/
structure PersonaModel where
  slug : String
  name : String
  role : String
  public_description : String
  personality : String
  private_knowledge : String
  knows_about_others : String
deriving DecidableEq

/-- The `min_length` constraints Pydantic enforces when the structured Phase-1
call is decoded (`persona_blueprints: min_length=4`,
`critical_clues: min_length=3`); a model output violating them raises and
never yields a `BaseScenarioModel` value. -/
def pydantic_accepts_base (b : BaseScenarioModel) : Bool :=
  decide (4 ≤ b.persona_blueprints.length) &&
  decide (3 ≤ b.solution.critical_clues.length)

/-- The assembled `scenario_dict` of `generate_async` /
`generate_personas_from_base`. -/
structure ScenarioDict where
  name : String
  setting : String
  victim : VictimModel
  solution : SolutionModel
  shared_knowledge : String
  timeline : String
  personas : List PersonaModel
  intro_message : String
deriving DecidableEq

/-- Assembly of the final scenario dict from the Phase-1 skeleton and the
Phase-2 personas (`generate_async`, lines 493-502). -/
def assemble_scenario (base : BaseScenarioModel)
    (personas : List PersonaModel) : ScenarioDict :=
  { name := base.name
    setting := base.setting
    victim := base.victim
    solution := base.solution
    shared_knowledge := base.shared_knowledge
    timeline := base.timeline
    personas := personas
    intro_message := base.intro_message }

/-- The slug-collection loop of `_validate_scenario`: walk the personas
keeping the slugs seen so far, raise on the first duplicate, return all
slugs. -/
def collectSlugs : List PersonaModel → List String →
    Except String (List String)
  | [], seen => Except.ok seen
  | p :: rest, seen =>
      if p.slug ∈ seen then
        Except.error ("Duplicate persona slug: " ++ p.slug)
      else collectSlugs rest (seen ++ [p.slug])

/-- scenario_generator.py `_validate_scenario`: unique slugs, murderer slug
present among the personas; raises (returns an error) otherwise. -/
def validate_scenario (scenario : ScenarioDict) : Except String Unit :=
  match collectSlugs scenario.personas [] with
  | Except.error e => Except.error e
  | Except.ok persona_slugs =>
      if scenario.solution.murderer ∈ persona_slugs then Except.ok ()
      else
        Except.error
          ("Murderer " ++ squote ++ scenario.solution.murderer ++ squote ++
            " not found in personas")

/-- scenario_generator.py `_generate_single_persona`: one generative call for
one blueprint (the `oracle`), then the blueprint slug/name/role/
public_description overwrite whatever the call returned. -/
def generate_single_persona
    (oracle : PersonaBlueprintModel → Except String PersonaModel)
    (blueprint : PersonaBlueprintModel) : Except String PersonaModel :=
  match oracle blueprint with
  | Except.error e => Except.error e
  | Except.ok persona =>
      Except.ok
        { persona with
            slug := blueprint.slug
            name := blueprint.name
            role := blueprint.role
            public_description := blueprint.public_description }

/-- Join semantics of `asyncio.gather`: results collected in task order;
the first raised exception fails the whole join. -/
def gatherExcept {α β : Type} (f : α → Except String β) :
    List α → Except String (List β)
  | [] => Except.ok []
  | a :: l =>
      match f a with
      | Except.error e => Except.error e
      | Except.ok b =>
          match gatherExcept f l with
          | Except.error e => Except.error e
          | Except.ok bs => Except.ok (b :: bs)

/-- scenario_generator.py `_generate_personas_parallel`: one independent call
per blueprint, joined by `asyncio.gather` — all results collected in
blueprint order, the first failure failing the whole phase. -/
def generate_personas_parallel
    (oracle : PersonaBlueprintModel → Except String PersonaModel)
    (base : BaseScenarioModel) : Except String (List PersonaModel) :=
  gatherExcept (generate_single_persona oracle) base.persona_blueprints

/-- One attempt of `generate_async`: Phase 1 (structured call), Phase 2
(parallel persona generation), assembly, then `_validate_scenario`; every
failure — model-call or validation — becomes the error of this attempt, handled
identically by the retry loop. -/
def attempt_once (phase1 : Except String BaseScenarioModel)
    (oracle2 : PersonaBlueprintModel → Except String PersonaModel) :
    Except String ScenarioDict :=
  match phase1 with
  | Except.error e => Except.error e
  | Except.ok base =>
      match generate_personas_parallel oracle2 base with
      | Except.error e => Except.error e
      | Except.ok personas =>
          let scenario_dict := assemble_scenario base personas
          match validate_scenario scenario_dict with
          | Except.error e => Except.error e
          | Except.ok _ => Except.ok scenario_dict

/-- The retry loop of `generate_async` (`for attempt in range(max_retries+1)`)
with `remaining` retries left after the current attempt `idx`; returns the
outcome together with the number of attempts performed.  On exhaustion it
raises `ValueError(f"Scenario generation failed: {last_error}")` carrying the
error of the last attempt. -/
def runGenAttempts (phase1 : Nat → Except String BaseScenarioModel)
    (oracle2 : Nat → PersonaBlueprintModel → Except String PersonaModel) :
    Nat → Nat → Except String ScenarioDict × Nat
  | remaining, idx =>
      match attempt_once (phase1 idx) (oracle2 idx) with
      | Except.ok scenario_dict => (Except.ok scenario_dict, 1)
      | Except.error e =>
          match remaining with
          | 0 => (Except.error ("Scenario generation failed: " ++ e), 1)
          | r + 1 =>
              let rec_result := runGenAttempts phase1 oracle2 r (idx + 1)
              (rec_result.1, rec_result.2 + 1)

/-- scenario_generator.py `generate_async`: run the two-phase pipeline with
up to `max_retries` additional attempts; attempt `i` uses the `i`-th
outcomes of the per-attempt generative oracles. -/
def generate_async (phase1 : Nat → Except String BaseScenarioModel)
    (oracle2 : Nat → PersonaBlueprintModel → Except String PersonaModel)
    (max_retries : Nat) : Except String ScenarioDict × Nat :=
  runGenAttempts phase1 oracle2 max_retries 0

/-! Concrete fixtures used by witnesses and counterexamples. -/

/-- A persona entry with the given identity fields. -/
def mkPersonaData (slug name role : String) : PersonaData :=
  { slug := slug, name := name, role := role
    public_description := "Beschreibung " ++ slug
    personality := "Persönlichkeit " ++ slug
    private_knowledge := "Geheimnis " ++ slug
    knows_about_others := "Wissen " ++ slug }

/-- A concrete four-persona scenario mirroring the shape of the shipped
office scenario (slugs elena, tom, lisa, klaus). -/
def scenario0 : Scenario :=
  { name := "Mord im Büro"
    setting := "Ein Büro in der Stadt."
    victim_name := "Marcus Weber"
    victim_role := "CTO"
    timeline := "TATZEIT: 20:00-23:00"
    shared_knowledge := "Bekannte Fakten."
    personas :=
      [mkPersonaData "elena" "Elena Schmidt" "CEO",
       mkPersonaData "tom" "Tom Berger" "Entwickler",
       mkPersonaData "lisa" "Lisa Hoffmann" "Assistentin",
       mkPersonaData "klaus" "Klaus Müller" "Hausmeister"]
    intro_message := "Willkommen." }

/-- A coordinator built from the concrete scenario. -/
def gm0 : GameMaster := { scenario := scenario0 }

/-- A fresh initial game state for the concrete scenario. -/
def gs0 : GameState := create_initial_game_state "g1" scenario0

/-- A store holding one freshly started game. -/
def store0 : Store := (initialize_game gm0 [] "g1").1

/-! C5: per-persona history filtering. -/

/-- A history entry relevant to a persona: a player message or this
own reply of this persona. -/
def relevantMsg (slug : String) (m : Message) : Bool :=
  match m.persona_slug with
  | none => true
  | some s => s == slug

/-- The Human/AI message a relevant history entry becomes. -/
def toHist (m : Message) : HistMsg :=
  match m.persona_slug with
  | none => HistMsg.human m.content
  | some _ => HistMsg.ai m.content

/-! Generator fixtures. -/

/-- A concrete blueprint. -/
def mkBlueprint (slug name role : String) (murd : Bool) :
    PersonaBlueprintModel :=
  { slug := slug, name := name, role := role
    public_description := "BP " ++ slug
    is_murderer := murd, secret_summary := "Geheimnis " ++ slug }

/-- A concrete Phase-1 skeleton with four blueprints. -/
def baseW : BaseScenarioModel :=
  { name := "Fall Weingut"
    setting := "Ein Weingut."
    victim := { name := "Viktor Vogel", role := "Besitzer"
                description := "Der alte Besitzer." }
    solution := { murderer := "greta", motive := "Geld", weapon := "Messer"
                  critical_clues := ["k1", "k2", "k3"] }
    shared_knowledge := "Fakten."
    timeline := "TATZEIT 21:00-22:00"
    persona_blueprints :=
      [mkBlueprint "greta" "Greta Gruber" "Winzerin" true,
       mkBlueprint "hans" "Hans Huber" "Koch" false,
       mkBlueprint "ida" "Ida Igel" "Gast" false,
       mkBlueprint "jan" "Jan Jung" "Gärtner" false]
    intro_message := "Willkommen auf dem Weingut." }

/-- A Phase-2 oracle that tries to alter every blueprint-level field. -/
def oracleW : PersonaBlueprintModel → Except String PersonaModel :=
  fun _ =>
    Except.ok
      { slug := "geaendert", name := "geaendert", role := "geaendert"
        public_description := "geaendert", personality := "nervös"
        private_knowledge := "PK", knows_about_others := "KO" }

/-- The Phase-2 result on the concrete skeleton. -/
def personasW : List PersonaModel :=
  match generate_personas_parallel oracleW baseW with
  | Except.ok ps => ps
  | Except.error _ => []

/-- The assembled concrete scenario dict. -/
def sdW : ScenarioDict := assemble_scenario baseW personasW

/-! Chat-pipeline helper definitions and lemmas. -/

/-- The player-entry message appended by `prepare_state_for_agent`. -/
def userMsg (content : String) : Message :=
  { role := "user", persona_slug := none, content := content }

/-- The character-entry message appended by `invoke`. -/
def asstMsg (slug content : String) : Message :=
  { role := "assistant", persona_slug := some slug, content := content }

/-- The graph state produced by `prepare_state_for_agent` from a fetched
state. -/
def preparedState (s : GameState) (slug msg : String)
    (hist : List Message) : GameState :=
  { s with
      user_message := msg
      selected_persona := slug
      messages := hist ++ [userMsg msg] }

/-- Whether an `Except` result is a success. -/
def exceptIsOk {ε α : Type} : Except ε α → Bool
  | Except.ok _ => true
  | Except.error _ => false

/-! C6: message-history evolution over a full turn. -/

/-- The store after a first successful turn against the concrete game, with
one prior entry echoed by the client: its stored history has 3 entries. -/
def storeB : Store :=
  chat_turn_ok gm0 store0 "g1" "tom" "Erste Frage" [userMsg "Intro"]
    "Antwort eins"

/-- The store after a second successful turn in which the client sends an
empty `chat_history`: the stored history shrinks to 2 entries. -/
def storeC : Store :=
  chat_turn_ok gm0 storeB "g1" "tom" "Zweite Frage" [] "Antwort zwei"

/-- The stored history length of a game. -/
def msgLen (st : Store) (gid : String) : Option Nat :=
  (alookup st gid).map (fun s => s.messages.length)

/-- The result of one concrete successful turn from the fresh store. -/
def chatW : Store × Except String GameState :=
  chat_with_persona gm0 store0 "g1" "tom" "Hallo Tom" []
    (fun _ _ => Except.ok "Guten Tag.")

/-- The final state of that concrete turn. -/
def sW : GameState :=
  match chatW.2 with
  | Except.ok s => s
  | Except.error _ => gs0

/-! C2: stress escalation and interrogation counting. -/

/-- The per-invocation stress update `min(1.0, stress_level + 0.1)`. -/
def stepStress (q : ℚ) : ℚ := min 1 (q + 1/10)

/-- The stress value after `n` invocations starting from `q`. -/
def iterStress : Nat → ℚ → ℚ
  | 0, q => q
  | n + 1, q => iterStress n (stepStress q)

/-- A concrete sequence of three successful turns (two to tom, one to
lisa). -/
def turnsW : List TurnReq :=
  [{ slug := "tom", message := "Frage eins", chat_history := []
     response := "Antwort eins" },
   { slug := "lisa", message := "Frage zwei", chat_history := []
     response := "Antwort zwei" },
   { slug := "tom", message := "Frage drei", chat_history := []
     response := "Antwort drei" }]

theorem alookup_aset_self {α : Type} (m : List (String × α)) (k : String) (v : α) :
    alookup (aset m k v) k = some v := by
  induction m with
  | nil => simp [aset, alookup, List.find?]
  | cons p rest ih =>
      obtain ⟨k', v'⟩ := p
      by_cases h : k' = k
      · subst h; simp [aset, alookup, List.find?]
      · have hb : (k' == k) = false := by
          simp [beq_iff_eq]; exact h
        simp only [aset, hb, if_false]
        simpa [alookup, List.find?, hb] using ih

theorem alookup_aset_other {α : Type} (m : List (String × α)) (k k' : String)
    (v : α) (hne : k' ≠ k) :
    alookup (aset m k v) k' = alookup m k' := by
  induction m with
  | nil =>
      have hb : (k == k') = false := by
        simp [beq_iff_eq]; exact fun h => hne h.symm
      simp [aset, alookup, List.find?, hb]
  | cons p rest ih =>
      obtain ⟨k₀, v₀⟩ := p
      by_cases h : k₀ = k
      · have hbeq : (k₀ == k) = true := by simp [beq_iff_eq, h]
        have hb1 : (k == k') = false := by
          simp [beq_iff_eq]; exact fun h2 => hne h2.symm
        have hb2 : (k₀ == k') = false := by
          simp [beq_iff_eq, h]; exact fun h2 => hne h2.symm
        simp [aset, hbeq, alookup, List.find?, hb1, hb2]
      · have hb : (k₀ == k) = false := by simp [beq_iff_eq]; exact h
        by_cases h2 : k₀ = k'
        · have hb2 : (k₀ == k') = true := by simp [beq_iff_eq, h2]
          simp [aset, hb, alookup, List.find?, hb2]
        · have hb2 : (k₀ == k') = false := by simp [beq_iff_eq]; exact h2
          simp only [aset, hb, if_false]
          simpa [alookup, List.find?, hb2] using ih

/-! Helper lemmas about list search and the agent map. -/

theorem find?_decomp {α : Type} (p : α → Bool) :
    ∀ (l : List α) (a : α), l.find? p = some a →
      ∃ l₁ l₂, l = l₁ ++ a :: l₂ ∧ (∀ x ∈ l₁, p x = false) ∧ p a = true := by
  intro l
  induction l with
  | nil => intro a h; simp [List.find?] at h
  | cons b t ih =>
      intro a h
      by_cases hb : p b = true
      · have : some b = some a := by simpa [List.find?, hb] using h
        obtain rfl : b = a := by injection this
        exact ⟨[], t, rfl, by intro x hx; simp at hx, hb⟩
      · have hb' : p b = false := by
          cases hpb : p b
          · rfl
          · exact absurd hpb hb
        have ht : t.find? p = some a := by simpa [List.find?, hb'] using h
        obtain ⟨l₁, l₂, hl, hfalse, hpa⟩ := ih a ht
        exact ⟨b :: l₁, l₂, by simp [hl], by
          intro x hx
          rcases List.mem_cons.mp hx with hx | hx
          · subst hx; exact hb'
          · exact hfalse x hx, hpa⟩

theorem findAgent_slug (gm : GameMaster) (s : String) (a : PersonaAgent)
    (h : gm.findAgent s = some a) : a.slug = s := by
  have := List.find?_some h
  simpa [beq_iff_eq] using this

theorem findAgent_any (gm : GameMaster) (s : String) (a : PersonaAgent)
    (h : gm.findAgent s = some a) :
    gm.persona_agents.any (fun x => x.slug == s) = true := by
  refine List.any_eq_true.mpr ⟨a, List.mem_of_find?_eq_some h, ?_⟩
  simpa [beq_iff_eq] using findAgent_slug gm s a h

/-! C10: personas outside the four hardcoded slugs never detect clues. -/

/-- C10: for every persona whose slug is not one of the four hardcoded slugs
tom, lisa, klaus, elena, the configured clue-keyword list is empty, clue
detection returns no clue for any reply text, and an invocation never
extends `revealed_clues`. -/
theorem generated_slugs_never_reveal_clues (slug : String)
    (h : slug ∉ (["tom", "lisa", "klaus", "elena"] : List String)) :
    setup_clue_keywords slug = [] ∧
    (∀ name response,
      detect_revealed_clue name (setup_clue_keywords slug) response = none) ∧
    (∀ name response state,
      (applyInvoke (mkPersonaAgent slug name) response state).revealed_clues
        = state.revealed_clues) := by
  have h1 : slug ≠ "tom" := by intro hc; exact h (by simp [hc])
  have h2 : slug ≠ "lisa" := by intro hc; exact h (by simp [hc])
  have h3 : slug ≠ "klaus" := by intro hc; exact h (by simp [hc])
  have h4 : slug ≠ "elena" := by intro hc; exact h (by simp [hc])
  have hkw : setup_clue_keywords slug = [] := by
    simp [setup_clue_keywords, h1, h2, h3, h4]
  refine ⟨hkw, ?_, ?_⟩
  · intro name response
    simp [detect_revealed_clue, hkw, List.find?]
  · intro name response state
    simp [applyInvoke, mkPersonaAgent, detect_revealed_clue, hkw, List.find?]

/-- Witness for C10 at the concrete slug "anna": an invocation of a persona
with a freshly generated slug leaves `revealed_clues` unchanged even when the
reply contains a hardcoded keyword. -/
theorem generated_slugs_never_reveal_clues_witness :
    (applyInvoke (mkPersonaAgent "anna" "Anna Fischer")
        "Es war um 21:15 im Flur." gs0).revealed_clues
      = gs0.revealed_clues :=
  (generated_slugs_never_reveal_clues "anna" (by decide)).2.2
    "Anna Fischer" "Es war um 21:15 im Flur." gs0

/-! C3: clue detection and the revealed-clue list. -/

/-- C3: clue detection scans the lowercased reply for the configured
keywords and returns the first match in configured keyword-list order,
formatted with the persona name; an invocation never introduces a duplicate
into `revealed_clues`, and re-running an invocation with the same reply
leaves `revealed_clues` unchanged. -/
theorem clue_detection_first_match_and_idempotent :
    (∀ name keywords response c,
      detect_revealed_clue name keywords response = some c →
      ∃ kw l₁ l₂, keywords = l₁ ++ kw :: l₂ ∧
        containsSub (strLower response.toList) kw.toList = true ∧
        (∀ kw' ∈ l₁,
          containsSub (strLower response.toList) kw'.toList = false) ∧
        c = fmtClue name kw) ∧
    (∀ agent response state, state.revealed_clues.Nodup →
      (applyInvoke agent response state).revealed_clues.Nodup) ∧
    (∀ agent response state,
      (applyInvoke agent response
          (applyInvoke agent response state)).revealed_clues
        = (applyInvoke agent response state).revealed_clues) := by
  refine ⟨?_, ?_, ?_⟩
  · intro name keywords response c h
    simp only [detect_revealed_clue, Option.map_eq_some'] at h
    obtain ⟨kw, hfind, hc⟩ := h
    obtain ⟨l₁, l₂, hl, hfalse, htrue⟩ := find?_decomp _ keywords kw hfind
    exact ⟨kw, l₁, l₂, hl, htrue, hfalse, hc.symm⟩
  · intro agent response state hnd
    simp only [applyInvoke]
    cases hd : detect_revealed_clue agent.name agent.clue_keywords response
    · simpa using hnd
    · rename_i c
      by_cases hmem : c ∈ state.revealed_clues
      · simpa [hmem] using hnd
      · simp only [hmem, if_false]
        simp [List.nodup_append, hnd, hmem]
  · intro agent response state
    simp only [applyInvoke]
    cases hd : detect_revealed_clue agent.name agent.clue_keywords response
    · simp
    · rename_i c
      by_cases hmem : c ∈ state.revealed_clues
      · simp [hmem]
      · have hmem2 : c ∈ state.revealed_clues ++ [c] := by simp
        simp [hmem, hmem2]

/-- Witness for C3: a Tom invocation from the fresh concrete state keeps
`revealed_clues` duplicate-free. -/
theorem clue_detection_witness :
    ((applyInvoke (mkPersonaAgent "tom" "Tom Berger")
        "Ich war um 21:15 dort." gs0).revealed_clues).Nodup :=
  clue_detection_first_match_and_idempotent.2.1
    (mkPersonaAgent "tom" "Tom Berger") "Ich war um 21:15 dort." gs0
    (by decide)

theorem persona_filterMap (slug : String) :
    ∀ l : List Message,
      (l.filterMap (fun m =>
        match m.persona_slug with
        | none => some (HistMsg.human m.content)
        | some s =>
            if s = slug then some (HistMsg.ai m.content) else none))
        = (l.filter (relevantMsg slug)).map toHist := by
  intro l
  induction l with
  | nil => rfl
  | cons m t ih =>
      cases h : m.persona_slug with
      | none =>
          simp [List.filterMap_cons, List.filter_cons, relevantMsg, toHist,
            h, ih]
      | some s =>
          by_cases hs : s = slug
          · simp [List.filterMap_cons, List.filter_cons, relevantMsg, toHist,
              h, hs, ih]
          · have hb : (s == slug) = false := by simp [beq_iff_eq]; exact hs
            simp [List.filterMap_cons, List.filter_cons, relevantMsg, h, hb,
              hs, ih]

/-- C5: the history handed to the generative call consists only of player
messages and the own replies of this persona, is exactly the relevant entries of
the last 10 history entries, is a suffix of the whole relevant-entry
sequence (so only the most recent relevant entries are used), and never
exceeds 10 entries. -/
theorem persona_history_private (slug : String) (messages : List Message) :
    get_persona_history slug messages
      = ((messages.drop (messages.length - 10)).filter
          (relevantMsg slug)).map toHist ∧
    (∃ t, (messages.filter (relevantMsg slug)).map toHist
        = t ++ get_persona_history slug messages) ∧
    (get_persona_history slug messages).length ≤ 10 := by
  have heq : get_persona_history slug messages
      = ((messages.drop (messages.length - 10)).filter
          (relevantMsg slug)).map toHist := by
    simpa [get_persona_history] using
      persona_filterMap slug (messages.drop (messages.length - 10))
  refine ⟨heq, ?_, ?_⟩
  · refine ⟨((messages.take (messages.length - 10)).filter
        (relevantMsg slug)).map toHist, ?_⟩
    rw [heq]
    rw [← List.map_append, ← List.filter_append,
      List.take_append_drop]
  · rw [heq, List.length_map]
    have h1 := List.length_filter_le (relevantMsg slug)
      (messages.drop (messages.length - 10))
    have h2 : (messages.drop (messages.length - 10)).length ≤ 10 := by
      rw [List.length_drop]; omega
    omega

/-! C7: Phase-2 fan-out returns one persona per blueprint with blueprint
fields preserved. -/

theorem gather_personas_spec
    (oracle : PersonaBlueprintModel → Except String PersonaModel) :
    ∀ (bps : List PersonaBlueprintModel) (ps : List PersonaModel),
      gatherExcept (generate_single_persona oracle) bps = Except.ok ps →
      ps.length = bps.length ∧
      ∀ i (hi : i < ps.length) (hb : i < bps.length),
        (ps.get ⟨i, hi⟩).slug = (bps.get ⟨i, hb⟩).slug ∧
        (ps.get ⟨i, hi⟩).name = (bps.get ⟨i, hb⟩).name ∧
        (ps.get ⟨i, hi⟩).role = (bps.get ⟨i, hb⟩).role ∧
        (ps.get ⟨i, hi⟩).public_description
          = (bps.get ⟨i, hb⟩).public_description := by
  intro bps
  induction bps with
  | nil =>
      intro ps h
      have hps : ps = [] := by
        simpa [gatherExcept] using h.symm
      subst hps
      refine ⟨rfl, ?_⟩
      intro i hi hb
      exact absurd hi (by simp)
  | cons bp rest ih =>
      intro ps h
      cases hsing : generate_single_persona oracle bp with
      | error e => simp [gatherExcept, hsing] at h
      | ok q =>
          cases hg : gatherExcept (generate_single_persona oracle) rest with
          | error e => simp [gatherExcept, hsing, hg] at h
          | ok bs =>
              have hfields : q.slug = bp.slug ∧ q.name = bp.name ∧
                  q.role = bp.role ∧
                  q.public_description = bp.public_description := by
                cases hor : oracle bp with
                | error e => simp [generate_single_persona, hor] at hsing
                | ok p =>
                    simp [generate_single_persona, hor] at hsing
                    rw [← hsing]
                    exact ⟨rfl, rfl, rfl, rfl⟩
              have hps : ps = q :: bs := by
                have h2 := h
                simp [gatherExcept, hsing, hg] at h2
                exact h2.symm
              subst hps
              obtain ⟨hlen, hidx⟩ := ih bs hg
              refine ⟨by simp [hlen], ?_⟩
              intro i hi hb
              cases i with
              | zero =>
                  simpa using hfields
              | succ j =>
                  have hj : j < bs.length := by simpa using hi
                  have hjb : j < rest.length := by simpa using hb
                  simpa using hidx j hj hjb

/-- C7: for every Phase-1 skeleton and every Phase-2 oracle, the parallel
persona fan-out that completes returns exactly one persona per blueprint
(in blueprint order), and for each returned persona the slug, name, role and
public_description equal the corresponding blueprint values even when the
generative call returned different values. -/
theorem phase2_preserves_blueprint_fields
    (oracle : PersonaBlueprintModel → Except String PersonaModel)
    (base : BaseScenarioModel) (personas : List PersonaModel)
    (h : generate_personas_parallel oracle base = Except.ok personas) :
    personas.length = base.persona_blueprints.length ∧
    ∀ i (hi : i < personas.length)
      (hb : i < base.persona_blueprints.length),
      (personas.get ⟨i, hi⟩).slug
        = (base.persona_blueprints.get ⟨i, hb⟩).slug ∧
      (personas.get ⟨i, hi⟩).name
        = (base.persona_blueprints.get ⟨i, hb⟩).name ∧
      (personas.get ⟨i, hi⟩).role
        = (base.persona_blueprints.get ⟨i, hb⟩).role ∧
      (personas.get ⟨i, hi⟩).public_description
        = (base.persona_blueprints.get ⟨i, hb⟩).public_description :=
  gather_personas_spec oracle base.persona_blueprints personas h

/-- Witness for C7: on the concrete four-blueprint skeleton, with an oracle
altering every identity field, the fan-out still returns 4 personas. -/
theorem phase2_preserves_blueprint_fields_witness :
    personasW.length = baseW.persona_blueprints.length ∧
    personasW.length = 4 := by
  have h := phase2_preserves_blueprint_fields oracleW baseW personasW rfl
  exact ⟨h.1, h.1.trans rfl⟩

/-! C4: validation accepts exactly the structurally sound scenario dicts. -/

theorem collectSlugs_ok_val :
    ∀ (ps : List PersonaModel) (seen slugs : List String),
      collectSlugs ps seen = Except.ok slugs →
      slugs = seen ++ ps.map PersonaModel.slug := by
  intro ps
  induction ps with
  | nil =>
      intro seen slugs h
      simp [collectSlugs] at h
      simp [h.symm]
  | cons p rest ih =>
      intro seen slugs h
      by_cases hmem : p.slug ∈ seen
      · simp [collectSlugs, hmem] at h
      · simp only [collectSlugs, hmem, if_false] at h
        have := ih (seen ++ [p.slug]) slugs h
        simpa using this

theorem collectSlugs_ok_iff :
    ∀ (ps : List PersonaModel) (seen : List String),
      (∃ slugs, collectSlugs ps seen = Except.ok slugs) ↔
      ((ps.map PersonaModel.slug).Nodup ∧
       ∀ x ∈ ps.map PersonaModel.slug, x ∉ seen) := by
  intro ps
  induction ps with
  | nil =>
      intro seen
      simp [collectSlugs]
  | cons p rest ih =>
      intro seen
      by_cases hmem : p.slug ∈ seen
      · simp only [collectSlugs, hmem, if_true]
        constructor
        · rintro ⟨slugs, h⟩; exact absurd h (by simp)
        · rintro ⟨-, hall⟩
          exact absurd hmem (hall p.slug (by simp))
      · simp only [collectSlugs, hmem, if_false]
        rw [ih (seen ++ [p.slug])]
        constructor
        · rintro ⟨hnd, hall⟩
          have hns : p.slug ∉ rest.map PersonaModel.slug := by
            intro hc
            have := hall p.slug hc
            simp at this
          refine ⟨by simp [List.nodup_cons, hns, hnd], ?_⟩
          intro x hx
          rcases List.mem_cons.mp hx with hx | hx
          · subst hx; exact hmem
          · have := hall x hx
            intro hc
            exact this (by simp [hc])
        · rintro ⟨hnd, hall⟩
          rw [List.map_cons, List.nodup_cons] at hnd
          refine ⟨hnd.2, ?_⟩
          intro x hx
          intro hc
          rcases List.mem_append.mp hc with hc | hc
          · exact hall x (by simp [hx]) hc
          · have : x = p.slug := by simpa using hc
            exact hnd.1 (this ▸ hx)

/-- C4: `_validate_scenario` accepts a scenario dict exactly when the persona
slugs are pairwise distinct and the murderer slug of the solution is one of them
(rejecting any violation with an error), and every Phase-2 result assembled
from a Pydantic-accepted skeleton (whose `persona_blueprints` carry
`min_length=4`) has at least 4 personas. -/
theorem scenario_validation_invariants :
    (∀ sd : ScenarioDict,
      validate_scenario sd = Except.ok () ↔
        ((sd.personas.map PersonaModel.slug).Nodup ∧
         sd.solution.murderer ∈ sd.personas.map PersonaModel.slug)) ∧
    (∀ (base : BaseScenarioModel)
       (oracle : PersonaBlueprintModel → Except String PersonaModel)
       (personas : List PersonaModel),
      pydantic_accepts_base base = true →
      generate_personas_parallel oracle base = Except.ok personas →
      4 ≤ (assemble_scenario base personas).personas.length) := by
  constructor
  · intro sd
    constructor
    · intro h
      cases hc : collectSlugs sd.personas [] with
      | error e => simp [validate_scenario, hc] at h
      | ok slugs =>
          have hval : slugs = sd.personas.map PersonaModel.slug := by
            simpa using collectSlugs_ok_val sd.personas [] slugs hc
          have hnd :=
            ((collectSlugs_ok_iff sd.personas []).mp ⟨slugs, hc⟩).1
          by_cases hm : sd.solution.murderer ∈ slugs
          · exact ⟨hnd, hval ▸ hm⟩
          · simp [validate_scenario, hc, hm] at h
    · rintro ⟨hnd, hm⟩
      obtain ⟨slugs, hc⟩ :=
        (collectSlugs_ok_iff sd.personas []).mpr ⟨hnd, by simp⟩
      have hval : slugs = sd.personas.map PersonaModel.slug := by
        simpa using collectSlugs_ok_val sd.personas [] slugs hc
      have hm' : sd.solution.murderer ∈ slugs := hval ▸ hm
      simp [validate_scenario, hc, hm']
  · intro base oracle personas hpy hgen
    have hlen :=
      (gather_personas_spec oracle base.persona_blueprints personas hgen).1
    have h4 : 4 ≤ base.persona_blueprints.length := by
      simp [pydantic_accepts_base] at hpy
      exact hpy.1
    simpa [assemble_scenario, hlen] using h4

/-- Witness for C4: the concrete assembled scenario dict passes validation,
and the concrete accepted skeleton yields at least 4 personas. -/
theorem scenario_validation_invariants_witness :
    validate_scenario sdW = Except.ok () ∧
    4 ≤ (assemble_scenario baseW personasW).personas.length :=
  ⟨(scenario_validation_invariants.1 sdW).mpr (by decide),
   scenario_validation_invariants.2 baseW oracleW personasW (by decide) rfl⟩

/-! C8: retry exhaustion of the generation pipeline. -/

theorem runGenAttempts_all_fail
    (phase1 : Nat → Except String BaseScenarioModel)
    (oracle2 : Nat → PersonaBlueprintModel → Except String PersonaModel)
    (e : Nat → String) :
    ∀ (r idx : Nat),
      (∀ i, idx ≤ i → i ≤ idx + r →
        attempt_once (phase1 i) (oracle2 i) = Except.error (e i)) →
      runGenAttempts phase1 oracle2 r idx
        = (Except.error ("Scenario generation failed: " ++ e (idx + r)),
           r + 1) := by
  intro r
  induction r with
  | zero =>
      intro idx h
      have h0 := h idx (le_refl idx) (by omega)
      simp [runGenAttempts, h0]
  | succ r ih =>
      intro idx h
      have h0 := h idx (le_refl idx) (by omega)
      have hrec := ih (idx + 1) (by
        intro i h1 h2
        exact h i (by omega) (by omega))
      have hidx : idx + 1 + r = idx + (r + 1) := by omega
      rw [hidx] at hrec
      simp [runGenAttempts, h0, hrec]

/-- C8: if every attempt of the two-phase pipeline fails (whether the
model call or the validation failed), `generate_async` with `max_retries = k`
performs exactly `k + 1` attempts, then raises the generation error carrying
the underlying cause of the last attempt, returning no scenario dict. -/
theorem generation_retry_exhaustion
    (phase1 : Nat → Except String BaseScenarioModel)
    (oracle2 : Nat → PersonaBlueprintModel → Except String PersonaModel)
    (k : Nat) (e : Nat → String)
    (h : ∀ i, i ≤ k →
      attempt_once (phase1 i) (oracle2 i) = Except.error (e i)) :
    generate_async phase1 oracle2 k
      = (Except.error ("Scenario generation failed: " ++ e k), k + 1) := by
  have := runGenAttempts_all_fail phase1 oracle2 e k 0 (by
    intro i h0 h1
    exact h i (by omega))
  simpa [generate_async] using this

/-- Witness for C8: with `max_retries = 1` and both Phase-1 attempts raising
a schema-validation error, `generate_async` performs 2 attempts and raises
the generation error wrapping the cause of the second attempt. -/
theorem generation_retry_exhaustion_witness :
    generate_async (fun _ => Except.error "SchemaValidationError")
        (fun _ => oracleW) 1
      = (Except.error
          ("Scenario generation failed: " ++ "SchemaValidationError"), 2) :=
  generation_retry_exhaustion (fun _ => Except.error "SchemaValidationError")
    (fun _ => oracleW) 1 (fun _ => "SchemaValidationError")
    (fun _ _ => rfl)

theorem prepare_existing (gm : GameMaster) (store : Store)
    (gid slug msg : String) (hist : List Message) (s₀ : GameState)
    (hs : alookup store gid = some s₀) :
    prepare_state_for_agent gm store gid slug msg hist
      = (store, preparedState s₀ slug msg hist) := by
  simp [prepare_state_for_agent, preparedState, userMsg, hs]

theorem prepare_selected (gm : GameMaster) (store : Store)
    (gid slug msg : String) (hist : List Message) :
    (prepare_state_for_agent gm store gid slug msg hist).2.selected_persona
      = slug := by
  cases hs : alookup store gid with
  | none => simp [prepare_state_for_agent, hs]
  | some s => simp [prepare_state_for_agent, hs]

theorem prepare_messages (gm : GameMaster) (store : Store)
    (gid slug msg : String) (hist : List Message) :
    (prepare_state_for_agent gm store gid slug msg hist).2.messages
      = hist ++ [userMsg msg] := by
  cases hs : alookup store gid with
  | none => simp [prepare_state_for_agent, userMsg, hs]
  | some s => simp [prepare_state_for_agent, userMsg, hs]

theorem chat_invalid (gm : GameMaster) (store : Store)
    (gid slug msg : String) (hist : List Message)
    (llm : List HistMsg → String → Except String String)
    (h : gm.findAgent slug = none) :
    chat_with_persona gm store gid slug msg hist llm
      = (store, Except.error "Invalid persona") := by
  simp [chat_with_persona, h]

theorem chat_route (gm : GameMaster) (store : Store)
    (gid slug msg : String) (hist : List Message) (a : PersonaAgent)
    (ha : gm.findAgent slug = some a) :
    route_to_persona gm
        (prepare_state_for_agent gm store gid slug msg hist).2 = slug := by
  simp [route_to_persona, prepare_selected, findAgent_any gm slug a ha]

theorem chat_known_fail (gm : GameMaster) (store : Store)
    (gid slug msg : String) (hist : List Message)
    (llm : List HistMsg → String → Except String String)
    (a : PersonaAgent) (e : String)
    (ha : gm.findAgent slug = some a)
    (hinv : invoke a llm
        (prepare_state_for_agent gm store gid slug msg hist).2
      = Except.error e) :
    chat_with_persona gm store gid slug msg hist llm
      = ((prepare_state_for_agent gm store gid slug msg hist).1,
         Except.error e) := by
  simp [chat_with_persona, ha, chat_route gm store gid slug msg hist a ha,
    hinv]

theorem chat_known_ok (gm : GameMaster) (store : Store)
    (gid slug msg : String) (hist : List Message)
    (llm : List HistMsg → String → Except String String)
    (a : PersonaAgent) (fs : GameState)
    (ha : gm.findAgent slug = some a)
    (hinv : invoke a llm
        (prepare_state_for_agent gm store gid slug msg hist).2
      = Except.ok fs) :
    chat_with_persona gm store gid slug msg hist llm
      = (aset (prepare_state_for_agent gm store gid slug msg hist).1 gid fs,
         Except.ok fs) := by
  simp [chat_with_persona, ha, chat_route gm store gid slug msg hist a ha,
    hinv]

/-! C9: a failing model call propagates and leaves the store unchanged. -/

/-- C9: when the generative call of a chat turn fails, the failure is
propagated to the caller (not retried — `invoke` issues exactly one call),
and the store of game states is returned exactly as it was before the turn:
for a pre-existing game, no history entry, no stress or interrogation-count
change and no revealed clue is applied. -/
theorem model_failure_leaves_state_unchanged (gm : GameMaster)
    (store : Store) (gid slug msg : String) (hist : List Message)
    (s₀ : GameState) (a : PersonaAgent) (e : String)
    (llm : List HistMsg → String → Except String String)
    (hs : alookup store gid = some s₀)
    (ha : gm.findAgent slug = some a)
    (hllm : ∀ h m, llm h m = Except.error e) :
    chat_with_persona gm store gid slug msg hist llm
      = (store, Except.error e) := by
  have hinv : invoke a llm
      (prepare_state_for_agent gm store gid slug msg hist).2
      = Except.error e := by
    simp [invoke, hllm]
  rw [chat_known_fail gm store gid slug msg hist llm a e ha hinv,
    prepare_existing gm store gid slug msg hist s₀ hs]

/-- Witness for C9: a failing model call on the concrete started game
returns the error and the untouched store. -/
theorem model_failure_leaves_state_unchanged_witness :
    chat_with_persona gm0 store0 "g1" "tom" "Wo warst du?" []
        (fun _ _ => Except.error "ModelError")
      = (store0, Except.error "ModelError") :=
  model_failure_leaves_state_unchanged gm0 store0 "g1" "tom" "Wo warst du?"
    [] gs0 (mkPersonaAgent "tom" "Tom Berger")
    "ModelError" (fun _ _ => Except.error "ModelError")
    (by decide) (by decide) (fun _ _ => rfl)

/-! C1: behaviour of the routing layer on an unknown character id. -/

/-- C1 (evaluation of the code at the failing input): with the coordinator
built over elena/tom/lisa/klaus and a request selecting the unknown
character id "c", `route_to_persona` silently redirects to the fixed
default "elena" instead of failing, and `prepare_state_for_agent` raises no
error — it proceeds, selecting "c" and appending the player entry.  (The
HTTP handler separately rejects unknown ids before the graph runs, leaving
the store unchanged.) -/
theorem unknown_persona_silent_fallback :
    route_to_persona gm0 (preparedState gs0 "c" "hello" []) = "elena" ∧
    (prepare_state_for_agent gm0 store0 "g1" "c" "hello" []).2.selected_persona
      = "c" ∧
    (prepare_state_for_agent gm0 store0 "g1" "c" "hello" []).2.messages
      = [userMsg "hello"] ∧
    (prepare_state_for_agent gm0 store0 "g1" "c" "hello" []).1 = store0 ∧
    chat_with_persona gm0 store0 "g1" "c" "hello" []
        (fun _ _ => Except.ok "Hi")
      = (store0, Except.error "Invalid persona") := by
  refine ⟨by decide, by decide, by decide, by decide, ?_⟩
  exact chat_invalid gm0 store0 "g1" "c" "hello" []
    (fun _ _ => Except.ok "Hi") (by decide)

/-- Counterexample to C6 as stated: a successful full turn whose supplied
`chat_history` is shorter than the stored history replaces the stored
history, so the stored length drops from 3 to 2 — not prior + 2, and a
decrease. -/
theorem history_shrinks_counterexample :
    msgLen storeB "g1" = some 3 ∧
    exceptIsOk (chat_with_persona gm0 storeB "g1" "tom" "Zweite Frage" []
        (fun _ _ => Except.ok "Antwort zwei")).2 = true ∧
    msgLen storeC "g1" = some 2 ∧
    ¬ (2 = 3 + 2) ∧ 2 < 3 := by
  refine ⟨by decide, by decide, by decide, by decide, by decide⟩

/-- C6 amended: after every successful full turn, the stored message history
equals the caller-supplied `chat_history` with exactly two entries appended —
the player entry then the character entry — so its length is the supplied
length of the supplied history plus 2 and the supplied entries keep their order; the
length exceeds the prior stored length by exactly 2 only when the caller
echoes the prior stored history back. -/
theorem turn_appends_two_to_supplied_history (gm : GameMaster)
    (store : Store) (gid slug msg : String) (hist : List Message)
    (llm : List HistMsg → String → Except String String) (s' : GameState)
    (h : (chat_with_persona gm store gid slug msg hist llm).2
      = Except.ok s') :
    ∃ response,
      s'.messages = hist ++ [userMsg msg, asstMsg slug response] ∧
      s'.messages.length = hist.length + 2 ∧
      alookup (chat_with_persona gm store gid slug msg hist llm).1 gid
        = some s' := by
  cases hfind : gm.findAgent slug with
  | none =>
      rw [chat_invalid gm store gid slug msg hist llm hfind] at h
      exact absurd h (by simp)
  | some a =>
      cases hllm : llm
          (get_persona_history a.slug
            (prepare_state_for_agent gm store gid slug msg hist).2.messages)
          (prepare_state_for_agent gm store gid slug msg hist).2.user_message
          with
      | error e =>
          have hinv : invoke a llm
              (prepare_state_for_agent gm store gid slug msg hist).2
              = Except.error e := by
            simp [invoke, hllm]
          rw [chat_known_fail gm store gid slug msg hist llm a e hfind hinv]
            at h
          exact absurd h (by simp)
      | ok response =>
          have hinv : invoke a llm
              (prepare_state_for_agent gm store gid slug msg hist).2
              = Except.ok (applyInvoke a response
                  (prepare_state_for_agent gm store gid slug msg hist).2)
              := by
            simp [invoke, hllm]
          rw [chat_known_ok gm store gid slug msg hist llm a _ hfind hinv]
            at h
          have hs' : s' = applyInvoke a response
              (prepare_state_for_agent gm store gid slug msg hist).2 := by
            have := h
            simp at this
            exact this.symm
          have haslug : a.slug = slug := findAgent_slug gm slug a hfind
          refine ⟨response, ?_, ?_, ?_⟩
          · rw [hs']
            simp [applyInvoke, prepare_messages, asstMsg, haslug]
          · rw [hs']
            simp [applyInvoke, prepare_messages]
          · rw [chat_known_ok gm store gid slug msg hist llm a _ hfind hinv,
              hs']
            exact alookup_aset_self _ _ _

/-- Witness for the amended C6 at the concrete turn: the stored history is
the supplied (empty) history plus the player entry and the character entry.
-/
theorem turn_appends_two_witness :
    ∃ response,
      sW.messages = [] ++ [userMsg "Hallo Tom", asstMsg "tom" response] ∧
      sW.messages.length = List.length ([] : List Message) + 2 ∧
      alookup (chat_with_persona gm0 store0 "g1" "tom" "Hallo Tom" []
          (fun _ _ => Except.ok "Guten Tag.")).1 "g1" = some sW :=
  turn_appends_two_to_supplied_history gm0 store0 "g1" "tom" "Hallo Tom" []
    (fun _ _ => Except.ok "Guten Tag.") sW rfl

theorem le_stepStress (q : ℚ) (h : q ≤ 1) : q ≤ stepStress q :=
  le_min h (by linarith)

theorem stepStress_nonneg (q : ℚ) (h : 0 ≤ q) : 0 ≤ stepStress q :=
  le_min (by norm_num) (by linarith)

theorem stepStress_le_one (q : ℚ) : stepStress q ≤ 1 :=
  min_le_left _ _

theorem iterStress_bounds (n : Nat) (q : ℚ) (h0 : 0 ≤ q) (h1 : q ≤ 1) :
    q ≤ iterStress n q ∧ 0 ≤ iterStress n q ∧ iterStress n q ≤ 1 := by
  induction n generalizing q with
  | zero => exact ⟨le_refl q, h0, h1⟩
  | succ n ih =>
      have hb := ih (stepStress q) (stepStress_nonneg q h0)
        (stepStress_le_one q)
      exact ⟨le_trans (le_stepStress q h1) hb.1, hb.2.1, hb.2.2⟩

theorem preparedState_agent_states (s : GameState) (slug msg : String)
    (hist : List Message) :
    (preparedState s slug msg hist).agent_states = s.agent_states := rfl

theorem applyInvoke_agent_self (agent : PersonaAgent) (resp : String)
    (state : GameState) :
    lookupAgentD (applyInvoke agent resp state).agent_states agent.slug
      = { stress_level :=
            stepStress
              (lookupAgentD state.agent_states agent.slug).stress_level
          lies_told := (lookupAgentD state.agent_states agent.slug).lies_told
          interrogation_count :=
            (lookupAgentD state.agent_states
              agent.slug).interrogation_count + 1
          last_topics :=
            (lookupAgentD state.agent_states agent.slug).last_topics } := by
  simp [applyInvoke, lookupAgentD, alookup_aset_self, stepStress]

theorem applyInvoke_agent_other (agent : PersonaAgent) (resp : String)
    (state : GameState) (c : String) (hne : c ≠ agent.slug) :
    lookupAgentD (applyInvoke agent resp state).agent_states c
      = lookupAgentD state.agent_states c := by
  simp [applyInvoke, lookupAgentD, alookup_aset_other _ _ _ _ hne]

theorem chat_turn_ok_routed (gm : GameMaster) (store : Store)
    (gid slug msg : String) (hist : List Message) (resp : String)
    (s₀ : GameState) (a : PersonaAgent)
    (ha : gm.findAgent slug = some a) (hs : alookup store gid = some s₀) :
    chat_turn_ok gm store gid slug msg hist resp
      = aset store gid
          (applyInvoke a resp (preparedState s₀ slug msg hist)) := by
  have hinv : invoke a (fun _ _ => Except.ok resp)
      (prepare_state_for_agent gm store gid slug msg hist).2
      = Except.ok (applyInvoke a resp
          (prepare_state_for_agent gm store gid slug msg hist).2) := by
    simp [invoke]
  unfold chat_turn_ok
  rw [chat_known_ok gm store gid slug msg hist (fun _ _ => Except.ok resp)
      a _ ha hinv,
    prepare_existing gm store gid slug msg hist s₀ hs]

theorem turn_unknown (gm : GameMaster) (store : Store)
    (gid slug msg : String) (hist : List Message) (resp : String)
    (h : gm.findAgent slug = none) :
    chat_turn_ok gm store gid slug msg hist resp = store := by
  unfold chat_turn_ok
  rw [chat_invalid gm store gid slug msg hist _ h]

theorem turn_self (gm : GameMaster) (store : Store)
    (gid slug msg : String) (hist : List Message) (resp : String)
    (s₀ : GameState) (a : PersonaAgent)
    (ha : gm.findAgent slug = some a) (hs : alookup store gid = some s₀) :
    ∃ s₁, alookup (chat_turn_ok gm store gid slug msg hist resp) gid
        = some s₁ ∧
      lookupAgentD s₁.agent_states slug
        = { stress_level :=
              stepStress (lookupAgentD s₀.agent_states slug).stress_level
            lies_told := (lookupAgentD s₀.agent_states slug).lies_told
            interrogation_count :=
              (lookupAgentD s₀.agent_states slug).interrogation_count + 1
            last_topics :=
              (lookupAgentD s₀.agent_states slug).last_topics } := by
  refine ⟨applyInvoke a resp (preparedState s₀ slug msg hist), ?_, ?_⟩
  · rw [chat_turn_ok_routed gm store gid slug msg hist resp s₀ a ha hs]
    exact alookup_aset_self _ _ _
  · have haslug := findAgent_slug gm slug a ha
    rw [← haslug, applyInvoke_agent_self, preparedState_agent_states]

theorem turn_other (gm : GameMaster) (store : Store)
    (gid slug msg : String) (hist : List Message) (resp : String)
    (s₀ : GameState) (a : PersonaAgent) (c : String)
    (ha : gm.findAgent slug = some a) (hs : alookup store gid = some s₀)
    (hc : c ≠ slug) :
    ∃ s₁, alookup (chat_turn_ok gm store gid slug msg hist resp) gid
        = some s₁ ∧
      lookupAgentD s₁.agent_states c = lookupAgentD s₀.agent_states c := by
  refine ⟨applyInvoke a resp (preparedState s₀ slug msg hist), ?_, ?_⟩
  · rw [chat_turn_ok_routed gm store gid slug msg hist resp s₀ a ha hs]
    exact alookup_aset_self _ _ _
  · have hc' : c ≠ a.slug := by
      rw [findAgent_slug gm slug a ha]; exact hc
    rw [applyInvoke_agent_other a resp _ c hc', preparedState_agent_states]

theorem runTurns_agent_state (gm : GameMaster) (gid c : String)
    (a : PersonaAgent) (ha : gm.findAgent c = some a) :
    ∀ (turns : List TurnReq) (store : Store) (s₀ : GameState),
      alookup store gid = some s₀ →
      ∃ s', alookup (runTurns gm gid turns store) gid = some s' ∧
        (lookupAgentD s'.agent_states c).stress_level
          = iterStress (turns.countP (fun tr => tr.slug == c))
              (lookupAgentD s₀.agent_states c).stress_level ∧
        (lookupAgentD s'.agent_states c).interrogation_count
          = (lookupAgentD s₀.agent_states c).interrogation_count
            + turns.countP (fun tr => tr.slug == c) := by
  intro turns
  induction turns with
  | nil =>
      intro store s₀ hs
      exact ⟨s₀, by simpa [runTurns] using hs, by simp [iterStress], by simp⟩
  | cons t rest ih =>
      intro store s₀ hs
      have hfold : runTurns gm gid (t :: rest) store
          = runTurns gm gid rest
              (chat_turn_ok gm store gid t.slug t.message t.chat_history
                t.response) := rfl
      by_cases htc : t.slug = c
      · have hfa : gm.findAgent t.slug = some a := by rw [htc]; exact ha
        obtain ⟨s₁, h1, h2⟩ := turn_self gm store gid t.slug t.message
          t.chat_history t.response s₀ a hfa hs
        rw [htc] at h2
        obtain ⟨s', hs', hst, hcnt⟩ := ih _ s₁ h1
        have hcount : (t :: rest).countP (fun tr => tr.slug == c)
            = rest.countP (fun tr => tr.slug == c) + 1 := by
          simp [List.countP_cons, htc]
        refine ⟨s', by rw [hfold]; exact hs', ?_, ?_⟩
        · rw [hst, h2, hcount]
          simp [iterStress]
        · rw [hcnt, h2, hcount]
          simp
          omega
      · have hcount : (t :: rest).countP (fun tr => tr.slug == c)
            = rest.countP (fun tr => tr.slug == c) := by
          simp [List.countP_cons, htc]
        cases hfind : gm.findAgent t.slug with
        | none =>
            have heq := turn_unknown gm store gid t.slug t.message
              t.chat_history t.response hfind
            obtain ⟨s', hs', hst, hcnt⟩ := ih store s₀ hs
            refine ⟨s', ?_, ?_, ?_⟩
            · rw [hfold, heq]; exact hs'
            · rw [hcount]; exact hst
            · rw [hcount]; exact hcnt
        | some b =>
            have hcb : c ≠ t.slug := fun h => htc h.symm
            obtain ⟨s₁, h1, h2⟩ := turn_other gm store gid t.slug t.message
              t.chat_history t.response s₀ b c hfind hs hcb
            obtain ⟨s', hs', hst, hcnt⟩ := ih _ s₁ h1
            refine ⟨s', by rw [hfold]; exact hs', ?_, ?_⟩
            · rw [hcount, hst, h2]
            · rw [hcount, hcnt, h2]

/-- C2: each invocation of the agent of a character sets its stress level to
`min(1.0, stress_level + 0.1)` and increments its interrogation count by
exactly 1; over every sequence of successful turns against one game, the
stress level of the character follows the iterated update (hence is monotone
non-decreasing and stays in [0, 1] from any in-range start) and its
interrogation count grows by exactly the number of turns routed to it. -/
theorem stress_monotone_and_interrogation_count (gm : GameMaster)
    (gid c : String) (a : PersonaAgent) (turns : List TurnReq)
    (store : Store) (s₀ : GameState)
    (ha : gm.findAgent c = some a)
    (hs : alookup store gid = some s₀)
    (h0 : 0 ≤ (lookupAgentD s₀.agent_states c).stress_level)
    (h1 : (lookupAgentD s₀.agent_states c).stress_level ≤ 1) :
    (∀ response state,
      (lookupAgentD (applyInvoke a response state).agent_states
          a.slug).stress_level
        = min 1
            ((lookupAgentD state.agent_states a.slug).stress_level + 1/10) ∧
      (lookupAgentD (applyInvoke a response state).agent_states
          a.slug).interrogation_count
        = (lookupAgentD state.agent_states a.slug).interrogation_count + 1)
      ∧
    ∃ s', alookup (runTurns gm gid turns store) gid = some s' ∧
      (lookupAgentD s'.agent_states c).interrogation_count
        = (lookupAgentD s₀.agent_states c).interrogation_count
          + turns.countP (fun tr => tr.slug == c) ∧
      (lookupAgentD s'.agent_states c).stress_level
        = iterStress (turns.countP (fun tr => tr.slug == c))
            (lookupAgentD s₀.agent_states c).stress_level ∧
      (lookupAgentD s₀.agent_states c).stress_level
        ≤ (lookupAgentD s'.agent_states c).stress_level ∧
      0 ≤ (lookupAgentD s'.agent_states c).stress_level ∧
      (lookupAgentD s'.agent_states c).stress_level ≤ 1 := by
  constructor
  · intro response state
    rw [applyInvoke_agent_self]
    exact ⟨rfl, rfl⟩
  · obtain ⟨s', hs', hst, hcnt⟩ :=
      runTurns_agent_state gm gid c a ha turns store s₀ hs
    have hb := iterStress_bounds (turns.countP (fun tr => tr.slug == c)) _
      h0 h1
    refine ⟨s', hs', hcnt, hst, ?_, ?_, ?_⟩
    · rw [hst]; exact hb.1
    · rw [hst]; exact hb.2.1
    · rw [hst]; exact hb.2.2

/-- Witness for C2 on the concrete game: after the three concrete turns,
the interrogation count of tom grew by the number of turns routed to tom and his
stress level follows the iterated bounded update. -/
theorem stress_monotone_witness :
    ∃ s', alookup (runTurns gm0 "g1" turnsW store0) "g1" = some s' ∧
      (lookupAgentD s'.agent_states "tom").interrogation_count
        = (lookupAgentD gs0.agent_states "tom").interrogation_count
          + turnsW.countP (fun tr => tr.slug == "tom") ∧
      (lookupAgentD s'.agent_states "tom").stress_level
        = iterStress (turnsW.countP (fun tr => tr.slug == "tom"))
            (lookupAgentD gs0.agent_states "tom").stress_level ∧
      (lookupAgentD gs0.agent_states "tom").stress_level
        ≤ (lookupAgentD s'.agent_states "tom").stress_level ∧
      0 ≤ (lookupAgentD s'.agent_states "tom").stress_level ∧
      (lookupAgentD s'.agent_states "tom").stress_level ≤ 1 :=
  (stress_monotone_and_interrogation_count gm0 "g1" "tom"
    (mkPersonaAgent "tom" "Tom Berger") turnsW store0 gs0
    (by decide) (by decide) (by decide) (by decide)).2

end MurderMystery
